import Mathlib

/-!
Verification of the jaiger agent runtime: a shallow embedding of its data
model (`jaiger/models.py`), the tool worker loop (`jaiger/tool/tool_process.py`),
the tool supervisor (`jaiger/tool_manager.py`), the agent loop
(`jaiger/main.py`), spec introspection (`jaiger/tool.py`), the HTTP facade
(`jaiger/http/http_server.py`) and the RPC fabric (`jaiger/rpc/*.py`),
together with theorems settling the specification's claims about them.
-/

namespace Jaiger

/-- Python repr of an embedded string, as interpolated into error
messages. -/
def pyQuote (s : String) : String := "\x27" ++ s ++ "\x27"

/-- Python `json.dumps` of an embedded string (escaping abstracted). -/
def jsonStr (s : String) : String := "\"" ++ s ++ "\""

/-- `ToolParam` from `jaiger/tool.py`: one documented parameter of a tool
method. -/
structure ToolParam where
  name : String
  type : String
  description : String
  optional : Bool
deriving Repr, DecidableEq

/-- `ToolReturns` from `jaiger/tool.py`. -/
structure ToolReturns where
  type : String
  description : String
deriving Repr, DecidableEq

/-- `ToolRaise` from `jaiger/tool.py`. -/
structure ToolRaise where
  type : String
  description : String
deriving Repr, DecidableEq

/-- `ToolSpec` from `jaiger/tool.py`: the machine-readable description of
one tool method. -/
structure ToolSpec where
  name : String
  description : String
  params : List ToolParam
  returns : Option ToolReturns
  raises : List ToolRaise
deriving Repr, DecidableEq

/-- JSON object for a dumped `ToolParam`. -/
def ToolParam.json (p : ToolParam) : String :=
  "\x7b\"name\": " ++ jsonStr p.name ++ ", \"type\": " ++ jsonStr p.type ++
    ", \"description\": " ++ jsonStr p.description ++
    ", \"optional\": " ++ (if p.optional then "true" else "false") ++ "\x7d"

/-- JSON object for a dumped `ToolReturns`. -/
def ToolReturns.json (r : ToolReturns) : String :=
  "\x7b\"type\": " ++ jsonStr r.type ++ ", \"description\": " ++ jsonStr r.description ++ "\x7d"

/-- JSON object for a dumped `ToolRaise`. -/
def ToolRaise.json (r : ToolRaise) : String :=
  "\x7b\"type\": " ++ jsonStr r.type ++ ", \"description\": " ++ jsonStr r.description ++ "\x7d"

/-- JSON object for a dumped `ToolSpec`. -/
def ToolSpec.json (s : ToolSpec) : String :=
  "\x7b\"name\": " ++ jsonStr s.name ++ ", \"description\": " ++ jsonStr s.description ++
    ", \"params\": [" ++ String.intercalate ", " (s.params.map ToolParam.json) ++
    "], \"returns\": " ++
    (match s.returns with
     | none => "null"
     | some r => r.json) ++
    ", \"raises\": [" ++ String.intercalate ", " (s.raises.map ToolRaise.json) ++ "]\x7d"

/-- Python repr of a `ToolParam` pydantic object. -/
def ToolParam.pyrepr (p : ToolParam) : String :=
  "ToolParam(name=" ++ pyQuote p.name ++ ", type=" ++ pyQuote p.type ++
    ", description=" ++ pyQuote p.description ++
    ", optional=" ++ (if p.optional then "True" else "False") ++ ")"

/-- Python repr of a `ToolReturns` pydantic object. -/
def ToolReturns.pyrepr (r : ToolReturns) : String :=
  "ToolReturns(type=" ++ pyQuote r.type ++ ", description=" ++ pyQuote r.description ++ ")"

/-- Python repr of a `ToolRaise` pydantic object. -/
def ToolRaise.pyrepr (r : ToolRaise) : String :=
  "ToolRaise(type=" ++ pyQuote r.type ++ ", description=" ++ pyQuote r.description ++ ")"

/-- Python repr of a `ToolSpec` pydantic object. -/
def ToolSpec.pyrepr (s : ToolSpec) : String :=
  "ToolSpec(name=" ++ pyQuote s.name ++ ", description=" ++ pyQuote s.description ++
    ", params=[" ++ String.intercalate ", " (s.params.map ToolParam.pyrepr) ++
    "], returns=" ++
    (match s.returns with
     | none => "None"
     | some r => r.pyrepr) ++
    ", raises=[" ++ String.intercalate ", " (s.raises.map ToolRaise.pyrepr) ++ "])"

/-- Python values as they travel over the worker pipe and into JSON:
`None`, booleans, integers, strings, lists, and `ToolSpec` objects (the
payload of a worker's reply to the `specs` query).  `Value.pynone` embeds
the Python `None` that pydantic treats as "null". -/
inductive Value where
  | pynone : Value
  | pybool : Bool → Value
  | pyint : Int → Value
  | pystr : String → Value
  | pylist : List Value → Value
  | pyspec : ToolSpec → Value
deriving Repr

/-- Equality test on embedded Python values. -/
def Value.beq : Value → Value → Bool
  | .pynone, .pynone => true
  | .pybool a, .pybool b => a == b
  | .pyint a, .pyint b => a == b
  | .pystr a, .pystr b => a == b
  | .pyspec a, .pyspec b => a == b
  | .pylist [], .pylist [] => true
  | .pylist (x :: xs), .pylist (y :: ys) =>
      Value.beq x y && Value.beq (.pylist xs) (.pylist ys)
  | _, _ => false

instance : BEq Value := ⟨Value.beq⟩

/-- Embedding of a raised Python exception: its type name, its `str(E)`
message, and the (site-dependent) frame text of its traceback. -/
structure PyErr where
  typeName : String
  message : String
  frames : String
deriving Repr, DecidableEq

/-- Model of `"".join(traceback.TracebackException.from_exception(e).format())`:
the traceback header, the frame lines, and the final `Type: str(E)` line. -/
def formatTrace (e : PyErr) : String :=
  "Traceback (most recent call last):\n" ++
    (e.frames ++ (e.typeName ++ (": " ++ (e.message ++ "\n"))))

/-- `Call` from `jaiger/models.py`: a function name with positional and
keyword arguments. -/
structure Call where
  function : String
  args : List Value := []
  kwargs : List (String × Value) := []
deriving Repr

/-- `CallResult` from `jaiger/models.py`: `result: Any = None` and
`error: Optional[str] = None`.  `result = Value.pynone` is the null result;
`error = none` is the null error. -/
structure CallResult where
  result : Value := .pynone
  error : Option String := none
deriving Repr

/-- `ToolCall` from `jaiger/models.py`: a `Call` naming its target tool. -/
structure ToolCall where
  tool : String
  function : String
  args : List Value := []
  kwargs : List (String × Value) := []
deriving Repr

/-- `PromptResult` from `jaiger/models.py`: optional prose text and an
optional list of tool calls, both defaulting to null. -/
structure PromptResult where
  text : Option String := none
  calls : Option (List ToolCall) := none
deriving Repr

/-- A tool instance as the worker sees it: `methods name` is what
`getattr(tool, name)` finds — `none` when the lookup raises
`AttributeError`, otherwise the bound method, a function from the call's
`args` and `kwargs` to either a returned `Value` or a raised exception. -/
structure ToolModel where
  methods : String → Option (List Value → List (String × Value) → Except PyErr Value)

/-- The `AttributeError` that `getattr(tool, request.function)` raises when
the tool has no attribute of that name. -/
def attributeError (function : String) : PyErr :=
  { typeName := "AttributeError"
    message := "\x27Tool\x27 object has no attribute \x27" ++ function ++ "\x27"
    frames := "  File tool_process.py, line 41, in run\n" }

/-- One iteration of the request loop in `ToolProcess.run`
(`jaiger/tool/tool_process.py` lines 38-53): receive a `Call`, look the
method up, invoke it and answer `CallResult(result=...)`; any exception is
answered as `CallResult(error=formatted trace)` with a null result. -/
def toolProcessHandle (tool : ToolModel) (request : Call) : CallResult :=
  match tool.methods request.function with
  | none => { result := .pynone, error := some (formatTrace (attributeError request.function)) }
  | some f =>
    match f request.args request.kwargs with
    | .ok v => { result := v, error := none }
    | .error e => { result := .pynone, error := some (formatTrace e) }

/-- Supervisor state from `ToolManager`: the `name → connection` map,
where each started tool's connection is served by the worker loop above.
Modelled as an association list in start order. -/
abbrev ToolManagerState := List (String × ToolModel)

/-- Dictionary lookup `self._conns[tool]`. -/
def ToolManagerState.lookup (tm : ToolManagerState) (name : String) : Option ToolModel :=
  match tm with
  | [] => none
  | (n, t) :: rest => if n = name then some t else ToolManagerState.lookup rest name

/-- Errors `ToolManager.call` raises: the `ValueError` for an unknown tool
name and the `RuntimeError` wrapping a worker-reported failure. -/
inductive CallError where
  | toolNotFound : String → CallError
  | remoteError : String → CallError
deriving Repr, DecidableEq

/-- Model of Python `repr` on embedded values, as interpolated into the
`RuntimeError` message by the f-string in `ToolManager.call`. -/
def Value.pyrepr : Value → String
  | .pynone => "None"
  | .pybool b => if b then "True" else "False"
  | .pyint n => toString n
  | .pystr s => pyQuote s
  | .pyspec s => s.pyrepr
  | .pylist xs => "[" ++ String.intercalate ", " (reprList xs) ++ "]"
where
  reprList : List Value → List String
    | [] => []
    | x :: xs => Value.pyrepr x :: reprList xs

/-- Python repr of an args list as printed by `f"> args: {args}"`. -/
def reprArgs (args : List Value) : String :=
  (Value.pylist args).pyrepr

/-- Python repr of a kwargs dict as printed by `f"> kwargs: {kwargs}"`. -/
def reprKwargs (kwargs : List (String × Value)) : String :=
  "\x7b" ++ String.intercalate ", "
    (kwargs.map (fun kv => pyQuote kv.1 ++ ": " ++ kv.2.pyrepr)) ++ "\x7d"

/-- The message of the `RuntimeError` raised by `ToolManager.call` when the
worker answered with a non-null `error` (`jaiger/tool_manager.py` lines
126-133). -/
def remoteErrorMessage (tool function : String) (args : List Value)
    (kwargs : List (String × Value)) (err : String) : String :=
  "Error when calling " ++ tool ++ ":\n" ++
    "> function: " ++ function ++ "\n" ++
    "> args: " ++ reprArgs args ++ "\n" ++
    "> kwargs: " ++ reprKwargs kwargs ++ "\n" ++
    "Error message:\n" ++ err

/-- `ToolManager.call` (`jaiger/tool_manager.py` lines 112-135): raise
`ValueError` for an unknown tool; otherwise send the `Call` on the tool's
connection, receive the worker's `CallResult` (the worker serves requests
one at a time, so the synchronous send/recv round trip is one
`toolProcessHandle` step), raise `RuntimeError` when it carries an error,
and return its result otherwise. -/
def ToolManagerState.call (tm : ToolManagerState) (tool function : String)
    (args : List Value := []) (kwargs : List (String × Value) := []) :
    Except CallError Value :=
  match tm.lookup tool with
  | none => .error (.toolNotFound ("Tool named \"" ++ tool ++ "\" does not exist!"))
  | some t =>
    let r := toolProcessHandle t { function := function, args := args, kwargs := kwargs }
    match r.error with
    | some err => .error (.remoteError (remoteErrorMessage tool function args kwargs err))
    | none => .ok r.result

/-- The statement that `t` contains `s` as a contiguous substring. -/
def ContainsStr (t s : String) : Prop :=
  ∃ pre post : String, t = pre ++ (s ++ post)

/-- A concrete example tool used by the witnesses: one method `add` summing
two integer arguments, and one method `boom` that raises
`RuntimeError("boom goes the dynamite")`. -/
def exampleTool : ToolModel where
  methods := fun name =>
    if name = "add" then
      some (fun args _ =>
        match args with
        | [.pyint a, .pyint b] => .ok (.pyint (a + b))
        | _ => .error { typeName := "TypeError"
                        message := "unsupported operand"
                        frames := "  File example.py, line 3, in add\n" })
    else if name = "boom" then
      some (fun _ _ =>
        .error { typeName := "RuntimeError"
                 message := "boom goes the dynamite"
                 frames := "  File example.py, line 7, in boom\n" })
    else none

/-- A concrete supervisor state holding `exampleTool` under the name
`calc`, used by the witnesses. -/
def exampleManager : ToolManagerState := [("calc", exampleTool)]

/-- A callback table as held by the HTTP facade and the RPC server: the
`function-name → handler` dictionary, `none` when indexing it raises
`KeyError`. -/
def Callbacks := String → Option (List Value → List (String × Value) → Except PyErr Value)

/-- The `KeyError` raised by `self._callbacks[call.function]` on an unknown
function name. -/
def callbacksKeyError (function : String) : PyErr :=
  { typeName := "KeyError"
    message := pyQuote function
    frames := "  File http_server.py, line 123, in call\n" }

/-- `HttpServer.call` (`jaiger/http/http_server.py` lines 108-131): run the
callback and answer `CallResult(result=...)`; any exception becomes
`CallResult(error=formatted trace)` with a null result. -/
def httpServerCall (callbacks : Callbacks) (c : Call) : CallResult :=
  match callbacks c.function with
  | none => { result := .pynone, error := some (formatTrace (callbacksKeyError c.function)) }
  | some f =>
    match f c.args c.kwargs with
    | .ok v => { result := v, error := none }
    | .error e => { result := .pynone, error := some (formatTrace e) }

/-- `RpcResponse` from `jaiger/rpc/models.py`: `result: Any` with a
mandatory (never null) string `error`. -/
structure RpcResponse where
  result : Value
  error : String
deriving Repr

/-- The RPC server's serialisation of a completed handler future
(`jaiger/rpc/rpc_server.py` lines 85-91): a raised exception becomes the
formatted trace, success becomes the value with `error=""`. -/
def rpcSerializeOutcome (outcome : Except PyErr Value) : RpcResponse :=
  match outcome with
  | .ok v => { result := v, error := "" }
  | .error e => { result := .pynone, error := formatTrace e }

/-- An `RpcResponse` read back as the `CallResult` shape of
`jaiger/models.py` (this is how `RpcClient._wait_for_response` validates
it): the mandatory string `error` field is always a non-null string. -/
def RpcResponse.asCallResult (r : RpcResponse) : CallResult :=
  { result := r.result, error := some r.error }

/-- The invariant claimed of every produced `CallResult`: it never carries
a non-null `result` together with a non-null `error` (exactly one field is
non-null, except for the all-null no-op acknowledgement). -/
def ProducedWellFormed (cr : CallResult) : Prop :=
  ¬ (cr.result ≠ Value.pynone ∧ cr.error ≠ none)

/-- Python `json.dumps` of an embedded value (a `ToolSpec` payload is
dumped as its pydantic `model_dump` object). -/
def Value.json : Value → String
  | .pynone => "null"
  | .pybool b => if b then "true" else "false"
  | .pyint n => toString n
  | .pystr s => jsonStr s
  | .pyspec s => s.json
  | .pylist xs => "[" ++ String.intercalate ", " (jsonList xs) ++ "]"
where
  jsonList : List Value → List String
    | [] => []
    | x :: xs => Value.json x :: jsonList xs

/-- JSON encoding of a kwargs mapping, as nested in a dumped `ToolCall`. -/
def jsonKwargs (kwargs : List (String × Value)) : String :=
  "\x7b" ++ String.intercalate ", "
    (kwargs.map (fun kv => jsonStr kv.1 ++ ": " ++ kv.2.json)) ++ "\x7d"

/-- `json.dumps(call_result.model_dump())`: the JSON object for one
`CallResult`, with a null `error` dumped as `null`. -/
def CallResult.jsonDump (cr : CallResult) : String :=
  "\x7b\"result\": " ++ cr.result.json ++ ", \"error\": " ++
    (match cr.error with
     | none => "null"
     | some s => jsonStr s) ++ "\x7d"

/-- `json.dumps(call_results)` on the list of dumped `CallResult`s fed back
to the model by `Jaiger.prompt`. -/
def jsonDumpResults (rs : List CallResult) : String :=
  "[" ++ String.intercalate ", " (rs.map CallResult.jsonDump) ++ "]"

/-- `json.dumps(call.model_dump())`: the JSON object for one `ToolCall`. -/
def ToolCall.jsonDump (c : ToolCall) : String :=
  "\x7b\"tool\": " ++ jsonStr c.tool ++ ", \"function\": " ++ jsonStr c.function ++
    ", \"args\": " ++ (Value.pylist c.args).json ++
    ", \"kwargs\": " ++ jsonKwargs c.kwargs ++ "\x7d"

/-- `json.dumps([call.model_dump() for call in result.calls])` from the
`auto_call=False` branch of `Jaiger.prompt`. -/
def jsonDumpCalls (cs : List ToolCall) : String :=
  "[" ++ String.intercalate ", " (cs.map ToolCall.jsonDump) ++ "]"

/-- Python `repr(e)` of the exceptions `ToolManager.call` raises, as stored
into `CallResult.error` by the except-branch of `Jaiger.prompt`. -/
def reprCallError : CallError → String
  | .toolNotFound m => "ValueError(" ++ pyQuote m ++ ")"
  | .remoteError m => "RuntimeError(" ++ pyQuote m ++ ")"

/-- The `CallResult` built for one tool call inside `Jaiger.prompt`
(`jaiger/main.py` lines 236-245): the supervisor call's return value on
success, `repr` of the raised exception with a null result on failure. -/
def invokeToolCall (tm : ToolManagerState) (c : ToolCall) : CallResult :=
  match tm.call c.tool c.function c.args c.kwargs with
  | .ok v => { result := v, error := none }
  | .error e => { result := .pynone, error := some (reprCallError e) }

/-- An observability hook: `on_call` receives the `ToolCall`, `on_result`
additionally the `CallResult`; either may raise. -/
def OnCallHook := ToolCall → Except PyErr Unit

/-- The `on_result` hook shape. -/
def OnResultHook := ToolCall → CallResult → Except PyErr Unit

/-- Entries of the logger output produced while dispatching (hook failures
are logged through `self._logger.error`). -/
inductive LogEvent where
  | onCallHookFailed : String → LogEvent
  | onResultHookFailed : String → LogEvent
deriving Repr, DecidableEq

/-- The guarded `on_call(call)` invocation (`jaiger/main.py` lines
228-235): an exception is caught and logged, never propagated. -/
def safeInvokeOnCall (hook : Option OnCallHook) (c : ToolCall) : List LogEvent :=
  match hook with
  | none => []
  | some f =>
    match f c with
    | .ok _ => []
    | .error e => [.onCallHookFailed (formatTrace e)]

/-- The guarded `on_result(call, result)` invocation (`jaiger/main.py`
lines 247-254): an exception is caught and logged, never propagated. -/
def safeInvokeOnResult (hook : Option OnResultHook) (c : ToolCall) (cr : CallResult) :
    List LogEvent :=
  match hook with
  | none => []
  | some f =>
    match f c cr with
    | .ok _ => []
    | .error e => [.onResultHookFailed (formatTrace e)]

/-- The output of dispatching one list of model-proposed calls: the tool
calls handed to the supervisor in dispatch order, the `CallResult`s
accumulated into `call_results` in append order, and the log. -/
structure RoundOut where
  dispatched : List ToolCall
  results : List CallResult
  log : List LogEvent
deriving Repr

/-- The `for call in result.calls` body of `Jaiger.prompt` (`jaiger/main.py`
lines 227-256), run over the whole list: strictly sequential — for each
call, fire `on_call`, invoke the supervisor, fire `on_result`, append the
result. -/
def dispatchCalls (tm : ToolManagerState) (onCall : Option OnCallHook)
    (onResult : Option OnResultHook) : List ToolCall → RoundOut
  | [] => { dispatched := [], results := [], log := [] }
  | c :: rest =>
    let lc := safeInvokeOnCall onCall c
    let cr := invokeToolCall tm c
    let lr := safeInvokeOnResult onResult c cr
    let o := dispatchCalls tm onCall onResult rest
    { dispatched := c :: o.dispatched
      results := cr :: o.results
      log := lc ++ lr ++ o.log }

/-- Failure outcomes of a `Jaiger.prompt` run.  `typeError` is the Python
`TypeError` raised when the `auto_call=False` branch iterates a null
`calls`; `outOfFuel` and `scriptEnded` are artifacts of the embedding —
`outOfFuel` bounds the source's unbounded `while` loop and `scriptEnded`
marks the scripted model driver running out of replies. -/
inductive RunError where
  | typeError : String → RunError
  | outOfFuel : RunError
  | scriptEnded : RunError
deriving Repr, DecidableEq

/-- The observable outcome of the `auto_call=True` loop of `Jaiger.prompt`:
the prompts sent back to the model (one per loop iteration, in order), the
tool calls handed to the supervisor in dispatch order, the log, and the
returned answer (`result.text`, possibly null). -/
structure AutoRun where
  sent : List String
  dispatched : List ToolCall
  log : List LogEvent
  answer : Except RunError (Option String)
deriving Repr

/-- The `while result.calls is not None` loop of `Jaiger.prompt`
(`jaiger/main.py` lines 225-260), with the model driver modelled as a
script of successive replies and the iteration count bounded by `fuel`:
when the reply carries no calls the loop exits returning `result.text`;
otherwise the calls are dispatched in order and the dumped results are
sent back as the next prompt. -/
def promptAuto (tm : ToolManagerState) (onCall : Option OnCallHook)
    (onResult : Option OnResultHook) :
    Nat → List PromptResult → PromptResult → AutoRun
  | 0, script, r =>
    match r.calls with
    | none => { sent := [], dispatched := [], log := [], answer := .ok r.text }
    | some cs =>
      let o := dispatchCalls tm onCall onResult cs
      { sent := [jsonDumpResults o.results], dispatched := o.dispatched, log := o.log
        answer := .error (if script.isEmpty then .scriptEnded else .outOfFuel) }
  | fuel + 1, script, r =>
    match r.calls with
    | none => { sent := [], dispatched := [], log := [], answer := .ok r.text }
    | some cs =>
      let o := dispatchCalls tm onCall onResult cs
      let nextText := jsonDumpResults o.results
      match script with
      | [] =>
        { sent := [nextText], dispatched := o.dispatched, log := o.log
          answer := .error .scriptEnded }
      | r2 :: rest =>
        let k := promptAuto tm onCall onResult fuel rest r2
        { sent := nextText :: k.sent
          dispatched := o.dispatched ++ k.dispatched
          log := o.log ++ k.log
          answer := k.answer }

/-- The `auto_call=False` branch of `Jaiger.prompt` (`jaiger/main.py` lines
262-267): return `result.text`, or when it is null the dumped calls; when
`calls` is also null, `json.dumps` iterates `None` and raises `TypeError`. -/
def promptNoAuto (r : PromptResult) : Except RunError String :=
  match r.text with
  | some t => .ok t
  | none =>
    match r.calls with
    | some cs => .ok (jsonDumpCalls cs)
    | none => .error (.typeError "\x27NoneType\x27 object is not iterable")

/-- `Jaiger.prompt` as a whole: obtain the first reply from the scripted
driver, then follow the `auto_call` branch.  Only the final answer is
exposed here. -/
def promptTop (tm : ToolManagerState) (onCall : Option OnCallHook)
    (onResult : Option OnResultHook) (fuel : Nat) (script : List PromptResult)
    (autoCall : Bool) : Except RunError (Option String) :=
  match script with
  | [] => .error .scriptEnded
  | r :: rest =>
    if autoCall then (promptAuto tm onCall onResult fuel rest r).answer
    else (promptNoAuto r).map some

/-- `ToolInfo` from `jaiger/tool_manager.py`: a tool's name with its list
of specs. -/
structure ToolInfo where
  name : String
  specs : List ToolSpec
deriving Repr, DecidableEq

/-- Pydantic validation of the worker's `specs` reply payload against
`List[ToolSpec]` (the type of `ToolInfo.specs`): only a list whose every
element is a `ToolSpec` object validates. -/
def decodeSpecItems : List Value → Option (List ToolSpec)
  | [] => some []
  | .pyspec s :: rest => (decodeSpecItems rest).map (s :: ·)
  | _ => none

/-- Validation of one reply payload: anything but a list of `ToolSpec`
objects — in particular the null result accompanying a worker-reported
error — fails. -/
def decodeSpecList : Value → Option (List ToolSpec)
  | .pylist xs => decodeSpecItems xs
  | _ => none

/-- The pydantic `ValidationError` raised by
`ToolInfo(name=name, specs=result.result)` when the reply payload is not a
list of `ToolSpec`. -/
def toolInfoValidationError (name : String) : PyErr :=
  { typeName := "ValidationError"
    message := "1 validation error for ToolInfo (tool " ++ pyQuote name ++ "): specs"
    frames := "  File tool_manager.py, line 32, in get_tool_info\n" }

/-- The inner `get_tool_info` of `ToolManager.tools`
(`jaiger/tool_manager.py` lines 28-32): send `Call(function="specs")`,
receive the worker's `CallResult`, and build
`ToolInfo(name=name, specs=result.result)` — with no error handling, so a
failed query raises out of the construction. -/
def getToolInfo (name : String) (tool : ToolModel) : Except PyErr ToolInfo :=
  match decodeSpecList (toolProcessHandle tool { function := "specs" }).result with
  | some specs => .ok { name := name, specs := specs }
  | none => .error (toolInfoValidationError name)

/-- `ToolManager.tools` (`jaiger/tool_manager.py` lines 27-36):
`pool.map(get_tool_info, ...)` over the started tools in insertion order;
consuming the map re-raises the first failure, so one failed query aborts
the whole call. -/
def ToolManagerState.tools : ToolManagerState → Except PyErr (List ToolInfo)
  | [] => .ok []
  | (n, t) :: rest =>
    match getToolInfo n t with
    | .error e => .error e
    | .ok info =>
      match ToolManagerState.tools rest with
      | .error e => .error e
      | .ok infos => .ok (info :: infos)

/-- A concrete spec used by the C6 scenarios. -/
def exampleSpec : ToolSpec :=
  { name := "add", description := "A calculator.", params := [], returns := none, raises := [] }

/-- A tool whose worker answers the `specs` query with one spec. -/
def goodSpecTool : ToolModel where
  methods := fun name =>
    if name = "specs" then some (fun _ _ => .ok (.pylist [.pyspec exampleSpec]))
    else none

/-- A tool whose `specs` query fails: the worker reports the raised
exception, so the reply's `result` is null. -/
def badSpecTool : ToolModel where
  methods := fun name =>
    if name = "specs" then
      some (fun _ _ =>
        .error { typeName := "RuntimeError"
                 message := "specs query failed"
                 frames := "  File example.py, line 12, in specs\n" })
    else none

/-- A supervisor holding the failing tool first and a healthy one second. -/
def mixedManager : ToolManagerState := [("bad", badSpecTool), ("good", goodSpecTool)]

/-- Everything `Tool._get_specs` reads out of `docstring_parser.parse` of
one method docstring: the params (arg name, type label, description,
optional flag), the optional returns and the raises. -/
structure DocParam where
  argName : String
  typeName : String
  description : String
  isOptional : Bool
deriving Repr, DecidableEq

/-- The parsed returns section of a docstring. -/
structure DocReturns where
  typeName : String
  description : String
deriving Repr, DecidableEq

/-- One parsed raises section entry of a docstring. -/
structure DocRaise where
  typeName : String
  description : String
deriving Repr, DecidableEq

/-- A parsed method docstring. -/
structure ParsedDoc where
  params : List DocParam
  returns : Option DocReturns
  raises : List DocRaise
deriving Repr, DecidableEq

/-- The reserved base-method names excluded by `Tool._get_specs`
(`jaiger/tool.py` lines 51-56). -/
def baseMethods : List String := ["config", "specs", "setup", "teardown"]

/-- The `name.startswith("_")` test used by the public-method predicate:
whether the first character is an underscore. -/
def startsWithUnderscore (name : String) : Bool :=
  match name.data with
  | [] => false
  | c :: _ => c == '_'

/-- The `is_public_method_of_child_class` predicate of `Tool._get_specs`
(`jaiger/tool.py` lines 58-63): not a reserved base method and not
underscore-prefixed. -/
def isPublicChildMethod (name : String) : Bool :=
  !(baseMethods.contains name) && !(startsWithUnderscore name)

/-- The `ToolSpec` built for one member (`jaiger/tool.py` lines 74-97):
the entry is named after the method, its description is the tool class's
docstring `self.__doc__`, and params, returns and raises come from the
method's parsed docstring. -/
def specOfMember (classDoc : String) (name : String) (doc : ParsedDoc) : ToolSpec :=
  { name := name
    description := classDoc
    params := doc.params.map (fun p =>
      { name := p.argName, type := p.typeName
        description := p.description, optional := p.isOptional })
    returns := doc.returns.map (fun r => { type := r.typeName, description := r.description })
    raises := doc.raises.map (fun r => { type := r.typeName, description := r.description }) }

/-- `Tool._get_specs` (`jaiger/tool.py` lines 50-99) over the tool's
members — the `(name, parsed docstring)` pairs `inspect.getmembers`
yields, in its order: keep the public child methods and map each to its
`ToolSpec`. -/
def getSpecs (classDoc : String) (members : List (String × ParsedDoc)) : List ToolSpec :=
  (members.filter (fun m => isPublicChildMethod m.1)).map
    (fun m => specOfMember classDoc m.1 m.2)

/-- A trivial parsed docstring for the introspection witnesses. -/
def emptyDoc : ParsedDoc := { params := [], returns := none, raises := [] }

/-- The documented public method used by the introspection witnesses. -/
def runDoc : ParsedDoc :=
  { params := [{ argName := "path", typeName := "str"
                 description := "The target path.", isOptional := false }]
    returns := some { typeName := "str", description := "The outcome." }
    raises := [] }

/-- A concrete member table for the introspection witnesses: one reserved
method, one public method with a documented parameter, one
underscore-prefixed method. -/
def exampleMembers : List (String × ParsedDoc) :=
  [("config", emptyDoc), ("run", runDoc), ("_helper", emptyDoc)]

/-- A concrete RPC callback table holding one healthy handler. -/
def exampleCallbacks : Callbacks := fun name =>
  if name = "prompt" then some (fun _ _ => .ok (.pystr "hi")) else none

/-- An operation observable on one tool's duplex channel: `send` places a
`Call` frame on it (the `conn.send` of `ToolManager.call`), `serve` is the
worker consuming that frame and replying (matched by the blocking
`conn.recv`). -/
inductive ChanOp where
  | send : ChanOp
  | serve : ChanOp
deriving Repr, DecidableEq

/-- Outstanding `Call` frames on the channel after one operation. -/
def stepChan (outstanding : Nat) : ChanOp → Nat
  | .send => outstanding + 1
  | .serve => outstanding - 1

/-- The instant-by-instant history of outstanding `Call` frames along a
sequence of channel operations. -/
def outstandingTrace (start : Nat) : List ChanOp → List Nat
  | [] => [start]
  | op :: rest => start :: outstandingTrace (stepChan start op) rest

/-- The channel operations one `ToolManager.call` performs on its tool's
channel: `conn.send(Call(...))` then the blocking `conn.recv()` of the
worker's reply (`jaiger/tool_manager.py` lines 122-124).  A `call_async`
pool task runs exactly the same two operations, but on a pool thread
(`jaiger/tool_manager.py` line 144). -/
def callChannelOps : List ChanOp := [.send, .serve]

/-- Interleavings of two operation sequences, as produced by two pool
threads concurrently targeting the same tool's channel. -/
inductive Interleave : List ChanOp → List ChanOp → List ChanOp → Prop
  | nil : Interleave [] [] []
  | left {x : ChanOp} {xs ys zs : List ChanOp} :
      Interleave xs ys zs → Interleave (x :: xs) ys (x :: zs)
  | right {y : ChanOp} {xs ys zs : List ChanOp} :
      Interleave xs ys zs → Interleave xs (y :: ys) (y :: zs)

/-- A three-part broker envelope `[sender-id, recipient-id, payload]` as
the ROUTER socket hands it to `broker_task`. -/
structure Frame where
  src : String
  dst : String
  content : String
deriving Repr, DecidableEq

/-- The `KeyError` raised by `sockets[socket]` in the broker loop when the
1 ms poll returned no event and `dict(poller.poll(1))` is empty. -/
def pollKeyError : PyErr :=
  { typeName := "KeyError"
    message := "<zmq.Socket object>"
    frames := "  File rpc_broker.py, line 36, in broker_task\n" }

/-- One iteration of the broker loop body (`jaiger/rpc/rpc_broker.py`
lines 35-39) over the frames pending on its socket: with a frame pending,
`recv` it and `send` it back out with sender and recipient swapped; with
nothing pending, `sockets[socket]` raises `KeyError` on the empty poll
dict, killing the broker process. -/
def brokerIter (pending : List Frame) : Except PyErr (List Frame × Frame) :=
  match pending with
  | [] => .error pollKeyError
  | f :: rest => .ok (rest, { src := f.dst, dst := f.src, content := f.content })

/-- A completed handler future as the server's drain loop sees it:
`bare` is what line 71-75 of `jaiger/rpc/rpc_server.py` actually appends
(`pool.submit(...)`, the future alone), `tagged` is the `(sender, future)`
pair the annotation and the drain loop `for src, future in completed`
expect. -/
inductive FutureEntry where
  | bare : Except PyErr Value → FutureEntry
  | tagged : String → Except PyErr Value → FutureEntry
deriving Repr

/-- The `TypeError` raised by `f[1]` in `separate_completed_futures` when
the entry is a bare `Future` (a `Future` object is not subscriptable). -/
def futureSubscriptTypeError : PyErr :=
  { typeName := "TypeError"
    message := "\x27Future\x27 object is not subscriptable"
    frames := "  File rpc_server.py, line 43, in separate_completed_futures\n" }

/-- Reading entry component 1, as `separate_completed_futures` does with
`f[1].done()`: only a tuple entry supports subscripting. -/
def subscriptEntry : FutureEntry → Except PyErr (String × Except PyErr Value)
  | .bare _ => .error futureSubscriptTypeError
  | .tagged s o => .ok (s, o)

/-- `separate_completed_futures` (`jaiger/rpc/rpc_server.py` lines 36-47)
on the futures list, with every submitted handler already completed (the
shallow embedding is synchronous): subscripting each entry, it raises on
the first bare future. -/
def separateCompletedFutures (futures : List FutureEntry) :
    Except PyErr (List (String × Except PyErr Value)) :=
  match futures with
  | [] => .ok []
  | f :: rest =>
    match subscriptEntry f with
    | .error e => .error e
    | .ok p =>
      match separateCompletedFutures rest with
      | .error e => .error e
      | .ok ps => .ok (p :: ps)

/-- The inbound-request part of one server poll cycle
(`jaiger/rpc/rpc_server.py` lines 66-92): on `[sender, Call]`, submit the
handler to the pool — appending the bare future, so the received sender
identity is dropped instead of being paired with it — then drain
completed futures, serialising each outcome as an `RpcResponse` reply to
its recorded sender. -/
def serverPollCycle (callbacks : Callbacks) (futures : List FutureEntry)
    (_sender : String) (request : Call) :
    Except PyErr (List (String × RpcResponse)) :=
  let outcome :=
    match callbacks request.function with
    | none => .error (callbacksKeyError request.function)
    | some f => f request.args request.kwargs
  match separateCompletedFutures (futures ++ [.bare outcome]) with
  | .error e => .error e
  | .ok completed => .ok (completed.map (fun p => (p.1, rpcSerializeOutcome p.2)))

end Jaiger

namespace Jaiger

/-- C1: for every started tool `T` and synchronous `supervisor.call(T, fn,
args, kwargs)`, if `T`'s method `fn` applied to the arguments returns `v`
the call returns `v`, and if it raises `E` the call fails with a
`RemoteError` whose message carries the formatted failure trace, in which
`str(E)` appears as a substring. -/
theorem call_result_roundtrip (tm : ToolManagerState) (T : ToolModel)
    (tname fn : String) (args : List Value) (kwargs : List (String × Value))
    (f : List Value → List (String × Value) → Except PyErr Value)
    (hT : tm.lookup tname = some T) (hf : T.methods fn = some f) :
    (∀ v : Value, f args kwargs = .ok v →
      tm.call tname fn args kwargs = .ok v) ∧
    (∀ e : PyErr, f args kwargs = .error e →
      ∃ msg : String,
        tm.call tname fn args kwargs = .error (.remoteError msg) ∧
        ContainsStr msg (formatTrace e) ∧ ContainsStr msg e.message) := by
  constructor
  · intro v hv
    simp [ToolManagerState.call, hT, toolProcessHandle, hf, hv]
  · intro e he
    refine ⟨remoteErrorMessage tname fn args kwargs (formatTrace e), ?_, ?_, ?_⟩
    · simp [ToolManagerState.call, hT, toolProcessHandle, hf, he]
    · exact ⟨"Error when calling " ++ tname ++ ":\n" ++
        ("> function: " ++ fn ++ "\n") ++
        ("> args: " ++ reprArgs args ++ "\n") ++
        ("> kwargs: " ++ reprKwargs kwargs ++ "\n") ++
        "Error message:\n", "", by
          simp only [remoteErrorMessage, String.append_assoc, String.append_empty]⟩
    · exact ⟨"Error when calling " ++ tname ++ ":\n" ++
        ("> function: " ++ fn ++ "\n") ++
        ("> args: " ++ reprArgs args ++ "\n") ++
        ("> kwargs: " ++ reprKwargs kwargs ++ "\n") ++
        "Error message:\n" ++
        ("Traceback (most recent call last):\n" ++ (e.frames ++ (e.typeName ++ ": "))),
        "\n", by
          simp only [remoteErrorMessage, formatTrace, String.append_assoc]⟩

/-- Witness for C1: with the concrete manager holding `exampleTool` as
`calc`, `call("calc", "add", [2, 3])` returns `5`, and
`call("calc", "boom")` fails with a `RemoteError` carrying the trace in
which `str(E) = "boom goes the dynamite"` appears. -/
theorem call_result_roundtrip_witness :
    exampleManager.call "calc" "add" [.pyint 2, .pyint 3] [] = .ok (.pyint 5) ∧
    ∃ msg : String,
      exampleManager.call "calc" "boom" [] [] = .error (.remoteError msg) ∧
      ContainsStr msg "boom goes the dynamite" := by
  have hlook : exampleManager.lookup "calc" = some exampleTool := rfl
  have hadd : exampleTool.methods "add" =
      some (fun args _ =>
        match args with
        | [.pyint a, .pyint b] => Except.ok (.pyint (a + b))
        | _ => .error { typeName := "TypeError"
                        message := "unsupported operand"
                        frames := "  File example.py, line 3, in add\n" }) := rfl
  have hboom : exampleTool.methods "boom" =
      some (fun _ _ =>
        Except.error { typeName := "RuntimeError"
                       message := "boom goes the dynamite"
                       frames := "  File example.py, line 7, in boom\n" }) := rfl
  refine ⟨?_, ?_⟩
  · exact (call_result_roundtrip exampleManager exampleTool "calc" "add"
      [.pyint 2, .pyint 3] [] _ hlook hadd).1 (.pyint 5) rfl
  · obtain ⟨msg, hmsg, -, hsub⟩ :=
      (call_result_roundtrip exampleManager exampleTool "calc" "boom"
        [] [] _ hlook hboom).2
        { typeName := "RuntimeError"
          message := "boom goes the dynamite"
          frames := "  File example.py, line 7, in boom\n" } rfl
    exact ⟨msg, hmsg, hsub⟩

/-- Helper: dispatching hands the supervisor exactly the listed calls, in
the listed order. -/
theorem dispatchCalls_dispatched (tm : ToolManagerState) (onCall : Option OnCallHook)
    (onResult : Option OnResultHook) (cs : List ToolCall) :
    (dispatchCalls tm onCall onResult cs).dispatched = cs := by
  induction cs with
  | nil => rfl
  | cons c rest ih => simp [dispatchCalls, ih]

/-- Helper: the accumulated `call_results` are the per-call outcomes, in
the listed order. -/
theorem dispatchCalls_results (tm : ToolManagerState) (onCall : Option OnCallHook)
    (onResult : Option OnResultHook) (cs : List ToolCall) :
    (dispatchCalls tm onCall onResult cs).results = cs.map (invokeToolCall tm) := by
  induction cs with
  | nil => rfl
  | cons c rest ih => simp [dispatchCalls, ih]

/-- C2 counterexample: the RPC server serialises the successful handler
outcome `1` as a response carrying the non-null result together with the
non-null (empty-string) error, so the produced `CallResult` violates the
claimed exactly-one-non-null invariant. -/
theorem callresult_xor_counterexample :
    (rpcSerializeOutcome (.ok (.pyint 1))).asCallResult.result ≠ Value.pynone ∧
    (rpcSerializeOutcome (.ok (.pyint 1))).asCallResult.error = some "" ∧
    ¬ ProducedWellFormed (rpcSerializeOutcome (.ok (.pyint 1))).asCallResult := by
  refine ⟨by simp [rpcSerializeOutcome, RpcResponse.asCallResult], rfl, ?_⟩
  intro h
  exact h ⟨by simp [rpcSerializeOutcome, RpcResponse.asCallResult], by
    simp [rpcSerializeOutcome, RpcResponse.asCallResult]⟩

/-- C2 amended: the tool worker and the HTTP facade never produce a
`CallResult` with both fields non-null (at most one is non-null, both null
being the no-op acknowledgement); the RPC server instead marks success
with the non-null empty string `error=""`, so whenever its response
carries a non-null result the error field is exactly `""`. -/
theorem callresult_produced_amended :
    (∀ (tool : ToolModel) (req : Call), ProducedWellFormed (toolProcessHandle tool req)) ∧
    (∀ (cbs : Callbacks) (c : Call), ProducedWellFormed (httpServerCall cbs c)) ∧
    (∀ outcome : Except PyErr Value,
      (rpcSerializeOutcome outcome).asCallResult.result ≠ Value.pynone →
        (rpcSerializeOutcome outcome).asCallResult.error = some "") := by
  refine ⟨?_, ?_, ?_⟩
  · intro tool req
    unfold ProducedWellFormed toolProcessHandle
    cases htool : tool.methods req.function with
    | none => simp
    | some f =>
      cases hres : f req.args req.kwargs with
      | ok v => simp [hres]
      | error e => simp [hres]
  · intro cbs c
    unfold ProducedWellFormed httpServerCall
    cases hcb : cbs c.function with
    | none => simp
    | some f =>
      cases hres : f c.args c.kwargs with
      | ok v => simp [hres]
      | error e => simp [hres]
  · intro outcome h
    cases outcome with
    | ok v => rfl
    | error e => exact (h rfl).elim

/-- Witness for C2 (amended): at the successful outcome `2` the RPC
response's result is non-null and its error is the empty string. -/
theorem callresult_produced_amended_witness :
    (rpcSerializeOutcome (.ok (.pyint 2))).asCallResult.result ≠ Value.pynone ∧
    (rpcSerializeOutcome (.ok (.pyint 2))).asCallResult.error = some "" := by
  have h : (rpcSerializeOutcome (.ok (.pyint 2))).asCallResult.result ≠ Value.pynone := by
    simp [rpcSerializeOutcome, RpcResponse.asCallResult]
  exact ⟨h, callresult_produced_amended.2.2 (.ok (.pyint 2)) h⟩

/-- C3: when a model reply lists the tool calls `cs` during an
`auto_call=True` prompt, the supervisor observes exactly `cs`, strictly in
the listed order, and the next prompt sent back to the model is the JSON
dump of the corresponding `CallResult`s in that same order. -/
theorem prompt_tool_ordering (tm : ToolManagerState) (onCall : Option OnCallHook)
    (onResult : Option OnResultHook) (fuel : Nat) (script : List PromptResult)
    (t : Option String) (cs : List ToolCall) :
    (promptAuto tm onCall onResult fuel script
      { text := t, calls := some cs }).dispatched.take cs.length = cs ∧
    (promptAuto tm onCall onResult fuel script
      { text := t, calls := some cs }).sent.head? =
      some (jsonDumpResults (cs.map (invokeToolCall tm))) := by
  cases fuel with
  | zero =>
    simp [promptAuto, dispatchCalls_dispatched, dispatchCalls_results, List.take_length]
  | succ n =>
    cases script with
    | nil =>
      simp [promptAuto, dispatchCalls_dispatched, dispatchCalls_results, List.take_length]
    | cons r2 rest =>
      constructor
      · have h := dispatchCalls_dispatched tm onCall onResult cs
        simp only [promptAuto]
        rw [h, ← h]
        simp [h, List.take_left]
      · simp [promptAuto, dispatchCalls_results]

/-- C4 counterexample: on a model reply populating neither `text` nor
`calls`, the `auto_call` loop returns normally (with the null text as its
answer) — no `ModelProtocolError` or any other error is surfaced to the
caller. -/
theorem null_reply_counterexample :
    (promptAuto [] none none 0 [] { text := none, calls := none }).answer =
      .ok none ∧
    promptTop [] none none 0 [{ text := none, calls := none }] true = .ok none := by
  exact ⟨rfl, rfl⟩

/-- C4 amended: on a model reply populating neither field, the agent loop
with `auto_call` enabled returns the null text as a normal answer (it
raises nothing), and with `auto_call` disabled it raises `TypeError` from
serialising the null `calls`; no `ModelProtocolError` is raised. -/
theorem null_reply_amended (tm : ToolManagerState) (onCall : Option OnCallHook)
    (onResult : Option OnResultHook) (fuel : Nat) (script : List PromptResult) :
    (promptAuto tm onCall onResult fuel script
      { text := none, calls := none }).answer = .ok none ∧
    promptNoAuto { text := none, calls := none } =
      .error (.typeError "\x27NoneType\x27 object is not iterable") := by
  constructor
  · cases fuel with
    | zero => rfl
    | succ n => rfl
  · rfl

/-- Helper: the final answer of the `auto_call` loop does not depend on the
installed hooks. -/
theorem promptAuto_answer_hook_free (tm : ToolManagerState)
    (onCall : Option OnCallHook) (onResult : Option OnResultHook) :
    ∀ (fuel : Nat) (script : List PromptResult) (r : PromptResult),
      (promptAuto tm onCall onResult fuel script r).answer =
        (promptAuto tm none none fuel script r).answer := by
  intro fuel
  induction fuel with
  | zero =>
    intro script r
    cases hr : r.calls <;> simp [promptAuto, hr]
  | succ n ih =>
    intro script r
    cases hr : r.calls with
    | none => simp [promptAuto, hr]
    | some cs =>
      cases script with
      | nil => simp [promptAuto, hr]
      | cons r2 rest => simp [promptAuto, hr, ih]

/-- C8: for every prompt run, installing `on_call` and `on_result` hooks —
including hooks that raise — leaves the final answer identical to the same
run with no hooks installed; a hook exception never propagates to the
prompt caller. -/
theorem hook_isolation (tm : ToolManagerState) (onCall : OnCallHook)
    (onResult : OnResultHook) (fuel : Nat) (script : List PromptResult)
    (autoCall : Bool) :
    promptTop tm (some onCall) (some onResult) fuel script autoCall =
      promptTop tm none none fuel script autoCall := by
  cases script with
  | nil => rfl
  | cons r rest =>
    cases autoCall with
    | false => rfl
    | true =>
      simpa [promptTop] using
        promptAuto_answer_hook_free tm (some onCall) (some onResult) fuel rest r

/-- Helper: a successful `get_tool_info` reports the queried tool's name. -/
theorem getToolInfo_name (n : String) (t : ToolModel) (info : ToolInfo)
    (h : getToolInfo n t = .ok info) : info.name = n := by
  unfold getToolInfo at h
  cases hd : decodeSpecList (toolProcessHandle t { function := "specs" }).result with
  | none => rw [hd] at h; exact absurd h (by simp)
  | some specs => rw [hd] at h; cases h; rfl

/-- Helper: when a prefix of the started tools all answer their specs
query successfully and the next tool's query fails, the failure propagates
out of `tools()` unchanged. -/
theorem tools_error_of_prefix_ok :
    ∀ (pre : ToolManagerState) (n : String) (t : ToolModel)
      (post : ToolManagerState) (e : PyErr),
      (∀ p ∈ pre, (getToolInfo p.1 p.2).isOk = true) →
      getToolInfo n t = .error e →
      ToolManagerState.tools (pre ++ (n, t) :: post) = .error e := by
  intro pre
  induction pre with
  | nil =>
    intro n t post e _ herr
    simp [ToolManagerState.tools, herr]
  | cons q rest ih =>
    intro n t post e hpre herr
    obtain ⟨qn, qt⟩ := q
    have h1 : (getToolInfo qn qt).isOk = true := hpre _ (List.mem_cons_self _ _)
    obtain ⟨info, hinfo⟩ : ∃ info, getToolInfo qn qt = .ok info := by
      cases hg : getToolInfo qn qt with
      | ok i => exact ⟨i, rfl⟩
      | error e2 => rw [hg] at h1; exact absurd h1 (by simp [Except.isOk, Except.toBool])
    have htl := ih n t post e (fun p hp => hpre p (List.mem_cons_of_mem _ hp)) herr
    simp [ToolManagerState.tools, hinfo, htl]

/-- C6 counterexample: with the failing tool `bad` started before the
healthy tool `good`, `tools()` raises the validation error out of the
whole query instead of reporting `ToolInfo("bad", [])` alongside `good`'s
info — a spec-query failure for one tool does fail the others. -/
theorem tools_query_failure_counterexample :
    ToolManagerState.tools mixedManager = .error (toolInfoValidationError "bad") ∧
    ToolManagerState.tools mixedManager ≠
      .ok [{ name := "bad", specs := [] }, { name := "good", specs := [exampleSpec] }] := by
  have h : ToolManagerState.tools mixedManager = .error (toolInfoValidationError "bad") := rfl
  exact ⟨h, by simp [h]⟩

/-- C6 amended: `tools()` returns one `ToolInfo` per started tool, in
start order, when every worker's specs query succeeds; but a failing query
for one tool is not isolated — the first failure (in start order, after
any successful prefix) propagates out of `tools()` and no tool's info is
returned. -/
theorem tools_order_and_failure_propagation (tm : ToolManagerState) :
    ((∀ p ∈ tm, (getToolInfo p.1 p.2).isOk = true) →
      ∃ infos : List ToolInfo, ToolManagerState.tools tm = .ok infos ∧
        infos.map ToolInfo.name = tm.map Prod.fst) ∧
    (∀ (pre post : ToolManagerState) (n : String) (t : ToolModel) (e : PyErr),
      tm = pre ++ (n, t) :: post →
      (∀ p ∈ pre, (getToolInfo p.1 p.2).isOk = true) →
      getToolInfo n t = .error e →
      ToolManagerState.tools tm = .error e) := by
  constructor
  · induction tm with
    | nil => intro _; exact ⟨[], rfl, rfl⟩
    | cons p rest ih =>
      intro hall
      obtain ⟨n, t⟩ := p
      have h1 : (getToolInfo n t).isOk = true := hall (n, t) (List.mem_cons_self _ _)
      obtain ⟨info, hinfo⟩ : ∃ info, getToolInfo n t = .ok info := by
        cases hg : getToolInfo n t with
        | ok i => exact ⟨i, rfl⟩
        | error e => rw [hg] at h1; exact absurd h1 (by simp [Except.isOk, Except.toBool])
      obtain ⟨infos, htl, hmap⟩ := ih (fun q hq => hall q (List.mem_cons_of_mem _ hq))
      refine ⟨info :: infos, ?_, ?_⟩
      · simp [ToolManagerState.tools, hinfo, htl]
      · simp [hmap, getToolInfo_name n t info hinfo]
  · intro pre post n t e heq hpre herr
    subst heq
    exact tools_error_of_prefix_ok pre n t post e hpre herr

/-- Witness for C6 (amended): a supervisor holding only the healthy tool
gets back exactly one `ToolInfo`, named after it. -/
theorem tools_order_and_failure_propagation_witness :
    ∃ infos : List ToolInfo,
      ToolManagerState.tools [("good", goodSpecTool)] = .ok infos ∧
      infos.map ToolInfo.name = ["good"] :=
  (tools_order_and_failure_propagation [("good", goodSpecTool)]).1 (by decide)

/-- Helper: the names of the derived specs are exactly the names of the
public child methods, in member order. -/
theorem getSpecs_names (classDoc : String) (members : List (String × ParsedDoc)) :
    (getSpecs classDoc members).map ToolSpec.name =
      (members.filter (fun m => isPublicChildMethod m.1)).map Prod.fst := by
  simp [getSpecs, List.map_map]
  intros
  rfl

/-- C9: for a tool whose members carry distinct names, `specs()` contains
exactly one entry named `m` for each public method `m` (public: not
underscore-prefixed and not one of the reserved names `config`, `specs`,
`setup`, `teardown`), and no entry names a reserved or underscore-prefixed
method. -/
theorem specs_totality (classDoc : String) (members : List (String × ParsedDoc))
    (hnd : (members.map Prod.fst).Nodup) :
    (∀ m ∈ members, isPublicChildMethod m.1 = true →
      ((getSpecs classDoc members).map ToolSpec.name).count m.1 = 1) ∧
    (∀ s ∈ getSpecs classDoc members,
      isPublicChildMethod s.name = true ∧ s.name ∉ baseMethods ∧
        startsWithUnderscore s.name = false) := by
  constructor
  · intro m hm hpub
    rw [getSpecs_names]
    have hsub : List.Sublist
        ((members.filter (fun m => isPublicChildMethod m.1)).map Prod.fst)
        (members.map Prod.fst) :=
      (List.filter_sublist members).map Prod.fst
    have hnd2 := hnd.sublist hsub
    have hmem : m.1 ∈ (members.filter (fun m => isPublicChildMethod m.1)).map Prod.fst :=
      List.mem_map_of_mem Prod.fst (List.mem_filter.mpr ⟨hm, hpub⟩)
    exact List.count_eq_one_of_mem hnd2 hmem
  · intro s hs
    obtain ⟨m, hm, rfl⟩ := List.mem_map.mp hs
    have hpub : isPublicChildMethod m.1 = true := (List.mem_filter.mp hm).2
    have hname : (specOfMember classDoc m.1 m.2).name = m.1 := rfl
    refine ⟨by rw [hname]; exact hpub, ?_, ?_⟩
    · rw [hname]
      intro hmem
      simp [isPublicChildMethod] at hpub
      exact hpub.1 hmem
    · rw [hname]
      rcases h2 : startsWithUnderscore m.1 with _ | _
      · rfl
      · simp [isPublicChildMethod, h2] at hpub

/-- Witness for C9: over the concrete member table, the public method
`run` gets exactly one spec entry (while `config` and `_helper` get none). -/
theorem specs_totality_witness :
    (exampleMembers.map Prod.fst).Nodup ∧
    ((getSpecs "A file tool." exampleMembers).map ToolSpec.name).count "run" = 1 :=
  ⟨by decide,
   (specs_totality "A file tool." exampleMembers (by decide)).1
     ("run", runDoc) (by decide) (by decide)⟩

/-- C10: every spec entry produced for a tool carries the tool class's
docstring as its description — the same string for all the tool's methods
— while the method's own parsed docstring contributes exactly the params,
returns and raises fields of that entry. -/
theorem specs_description_from_class_doc (classDoc : String)
    (members : List (String × ParsedDoc)) (s : ToolSpec)
    (hs : s ∈ getSpecs classDoc members) :
    s.description = classDoc ∧
    ∃ m ∈ members, s.name = m.1 ∧
      s.params = m.2.params.map (fun p =>
        { name := p.argName, type := p.typeName
          description := p.description, optional := p.isOptional }) ∧
      s.returns = m.2.returns.map (fun r =>
        { type := r.typeName, description := r.description }) ∧
      s.raises = m.2.raises.map (fun r =>
        { type := r.typeName, description := r.description }) := by
  obtain ⟨m, hm, rfl⟩ := List.mem_map.mp hs
  exact ⟨rfl, m, (List.mem_filter.mp hm).1, rfl, rfl, rfl, rfl⟩

/-- Witness for C10: the spec derived for `run` over the concrete member
table carries the class docstring as its description and `run`'s own
params and returns. -/
theorem specs_description_from_class_doc_witness :
    (specOfMember "A file tool." "run" runDoc).description = "A file tool." ∧
    ∃ m ∈ exampleMembers, (specOfMember "A file tool." "run" runDoc).name = m.1 ∧
      (specOfMember "A file tool." "run" runDoc).params = m.2.params.map (fun p =>
        { name := p.argName, type := p.typeName
          description := p.description, optional := p.isOptional }) ∧
      (specOfMember "A file tool." "run" runDoc).returns = m.2.returns.map (fun r =>
        { type := r.typeName, description := r.description }) ∧
      (specOfMember "A file tool." "run" runDoc).raises = m.2.raises.map (fun r =>
        { type := r.typeName, description := r.description }) :=
  specs_description_from_class_doc "A file tool." exampleMembers
    (specOfMember "A file tool." "run" runDoc) (by decide)

/-- C7 counterexample: interleaving two concurrent `call_async` pool tasks
targeting the same tool — both perform `conn.send` before either
`conn.recv` completes — puts two `Call` frames on the tool's channel at
one instant, so the claimed at-most-one-outstanding invariant fails. -/
theorem single_inflight_counterexample :
    Interleave callChannelOps callChannelOps
      [ChanOp.send, ChanOp.send, ChanOp.serve, ChanOp.serve] ∧
    2 ∈ outstandingTrace 0 [ChanOp.send, ChanOp.send, ChanOp.serve, ChanOp.serve] ∧
    ¬ (∀ t : List ChanOp, Interleave callChannelOps callChannelOps t →
        ∀ k ∈ outstandingTrace 0 t, k ≤ 1) := by
  refine ⟨?_, by decide, ?_⟩
  · exact .left (.right (.left (.right .nil)))
  · intro h
    exact absurd (h _ (.left (.right (.left (.right .nil)))) 2 (by decide)) (by decide)

/-- Helper: one synchronous call's send/recv pair brings the channel from
empty back to empty, passing through exactly one outstanding frame. -/
theorem outstandingTrace_callOps (rest : List ChanOp) :
    outstandingTrace 0 (callChannelOps ++ rest) = 0 :: 1 :: outstandingTrace 0 rest := rfl

/-- C7 amended: the synchronous `call` path does keep at most one `Call`
frame outstanding per tool — any number of calls run back to back never
exceed one frame on the channel — but `call_async` adds no per-tool
serialisation, so concurrent pool tasks on the same tool can interleave
their sends and place two frames on the channel at once. -/
theorem sequential_calls_single_inflight (n : Nat) :
    ∀ k ∈ outstandingTrace 0 (List.replicate n callChannelOps).flatten, k ≤ 1 := by
  induction n with
  | zero =>
    intro k hk
    simp [outstandingTrace] at hk
    omega
  | succ m ih =>
    rw [List.replicate_succ, List.flatten_cons, outstandingTrace_callOps]
    intro k hk
    rcases List.mem_cons.mp hk with rfl | hk2
    · omega
    · rcases List.mem_cons.mp hk2 with rfl | hk3
      · omega
      · exact ih k hk3

/-- Witness for C7 (amended): along two back-to-back synchronous calls the
channel holds the instant value 1, which is within the bound. -/
theorem sequential_calls_single_inflight_witness :
    (1 : Nat) ∈ outstandingTrace 0 (List.replicate 2 callChannelOps).flatten ∧ 1 ≤ 1 :=
  ⟨by decide, sequential_calls_single_inflight 2 1 (by decide)⟩

/-- C5: the broker's per-frame rewrite is the claimed envelope swap — a
pending `[A, B, body]` goes back out as `[B, A, body]`, so the server at
`B` receives `[A, body]`, and a pending reply `[B, A, body2]` goes out as
`[A, B, body2]` — but the loop hosting it contradicts its own docstring:
an idle poll cycle leaves the poll dict empty and `sockets[socket]` raises
`KeyError`, killing the broker process, and the RPC server's drain loop
raises `TypeError` subscripting the bare futures it appended, so it can
never send a reply. -/
theorem rpc_broker_routing_code_bug :
    brokerIter [{ src := "A", dst := "B", content := "body" }] =
      .ok ([], { src := "B", dst := "A", content := "body" }) ∧
    brokerIter [{ src := "B", dst := "A", content := "body2" }] =
      .ok ([], { src := "A", dst := "B", content := "body2" }) ∧
    brokerIter [] = .error pollKeyError ∧
    serverPollCycle exampleCallbacks [] "A" { function := "prompt" } =
      .error futureSubscriptTypeError :=
  ⟨rfl, rfl, rfl, rfl⟩

end Jaiger
